import Mathlib

/-
  Verification of the YTAudioConverterAPI service (src/main.py) against its
  specification.  The Python source is shallowly embedded: pure helper
  functions become Lean functions over List Char / Int, filesystem and
  network effects become explicit parameters (an abstract FileSystem record,
  Except-valued external-capability outcomes), and machine arithmetic is
  modelled with unbounded Int, matching Python's integers.
-/

namespace YTA

/-! ## Range resolver (parse_range_header, src/main.py lines 204-217)

The Python code runs the regular expression (\d+)-(\d*) with re.search
(leftmost match, greedy).  For this pattern, a match exists at a position i
exactly when a nonempty digit run starts at i and the first non-digit
character after that run is a dash: the greedy \d+ must consume the whole
run, since backtracking would leave a digit (not a dash) as the next
character.  Group 1 is that digit run and group 2 is the (possibly empty)
digit run following the dash.  reSearch below implements exactly this
leftmost-position search. -/

/-- Numeric value of a decimal digit string, as Python int() on digits. -/
def decVal (ds : List Char) : Int :=
  ds.foldl (fun acc c => acc * 10 + ((c.toNat : Int) - 48)) 0

/-- Try to match the pattern (\d+)-(\d*) at the head of the list, returning
the two capture groups. -/
def matchAt (s : List Char) : Option (List Char × List Char) :=
  let d1 := s.takeWhile Char.isDigit
  if d1.isEmpty then none
  else
    match s.dropWhile Char.isDigit with
    | '-' :: rest => some (d1, rest.takeWhile Char.isDigit)
    | _ => none

/-- Leftmost match of (\d+)-(\d*), as Python re.search. -/
def reSearch : List Char → Option (List Char × List Char)
  | [] => none
  | c :: rest =>
    match matchAt (c :: rest) with
    | some r => some r
    | none => reSearch rest

/-- Embedding of parse_range_header: resolve a Range header against a known
file size, returning a (start, end) byte interval. -/
def parse_range_header (range_header : String) (file_size : Int) : Int × Int :=
  match reSearch range_header.data with
  | none => (0, file_size - 1)
  | some (g1, g2) =>
    let start_pos := if g1.isEmpty then 0 else decVal g1
    let end_pos := if g2.isEmpty then file_size - 1 else decVal g2
    let s := max 0 (min start_pos (file_size - 1))
    let e := max s (min end_pos (file_size - 1))
    (s, e)

example : parse_range_header ("bytes=100-200") 1000 = (100, 200) := by decide
example : parse_range_header ("bytes=100-") 1000 = (100, 999) := by decide
example : parse_range_header ("bytes=-500") 1000 = (0, 999) := by decide
example : parse_range_header ("garbage") 1000 = (0, 999) := by decide
example : parse_range_header ("bytes=900-2000") 1000 = (900, 999) := by decide
example : parse_range_header ("bytes=5-10") 0 = (0, 0) := by decide

/-! ## HTTP responses and content delivery
(make_partial_response / make_entire_response, src/main.py lines 219-251)

A response is modelled by its status code, its explicitly set headers and
its body bytes.  File contents are lists of byte values.  Python's
file.seek(start) followed by file.read(n) yields the bytes from offset
start, at most n of them, which for the nonnegative offsets and lengths the
resolver produces is (content.drop start).take n. -/

structure HttpResponse where
  status : Nat
  headers : List (String × String)
  body : List Nat
deriving DecidableEq

/-- Embedding of make_partial_response: 206 response carrying the requested
byte span, with Content-Range and Content-Length headers. -/
def make_partial_response (content : List Nat) (start_pos end_pos file_size : Int) :
    HttpResponse :=
  let content_length := end_pos - start_pos + 1
  { status := 206
    headers :=
      [("Content-Range",
          "bytes " ++ toString start_pos ++ "-" ++ toString end_pos ++ "/" ++
            toString file_size),
        ("Content-Length", toString content_length)]
    body := (content.drop start_pos.toNat).take content_length.toNat }

/-- Embedding of make_entire_response: whole file with Content-Length header;
Flask's make_response default status is 200. -/
def make_entire_response (content : List Nat) (file_size : Int) : HttpResponse :=
  { status := 200
    headers := [("Content-Length", toString file_size)]
    body := content }

/-! ## The audio-serving handler (serve_audio, src/main.py lines 170-202) -/

/-- Does the first list occur as a leading segment of the second? -/
def startsL : List Char → List Char → Bool
  | [], _ => true
  | _ :: _, [] => false
  | p :: ps, c :: cs => p == c && startsL ps cs

/-- Substring occurrence test, as the Python operator in on str. -/
def hasSubL (pat : List Char) : List Char → Bool
  | [] => startsL pat []
  | c :: cs => startsL pat (c :: cs) || hasSubL pat cs

/-- Python str.startswith for a one-character separator. -/
def startsSlash : List Char → Bool
  | [] => false
  | c :: _ => c == '/'

def dotdot : List Char := '.' :: '.' :: []

/-- os.path.join of a directory and a final component: an absolute final
component discards the directory. -/
def osJoin2 (a b : List Char) : List Char :=
  if startsSlash b then b else a ++ ('/' :: b)

/-- The cache directory under the process working directory (os.getcwd() is
absolute with no trailing separator). -/
def audios_dir (root : List Char) : List Char := root ++ ('/' :: "audios".data)

/-- os.path.join(root_dir, 'audios', filename), as computed by serve_audio. -/
def filePathOf (root filename : List Char) : List Char :=
  osJoin2 (audios_dir root) filename

/-- Abstract filesystem: which paths are regular files and what bytes they
hold.  A file's size (os.path.getsize) is the length of its content. -/
structure FileSystem where
  isFile : List Char → Bool
  content : List Char → List Nat

/-- The three headers serve_audio sets on every served response. -/
def setCors (r : HttpResponse) : HttpResponse :=
  { r with headers := r.headers ++
      [("Access-Control-Allow-Origin", "*"),
        ("Access-Control-Allow-Methods", "GET"),
        ("Content-Type", "audio/mpeg")] }

def bodyOfText (s : String) : List Nat := s.data.map Char.toNat

def invalidMsg : String := "Invalid filename"

def notFoundMsg : String := "Audio file not found"

/-- Embedding of serve_audio.  The second component records every path the
handler touched on the filesystem (isfile, getsize, open/read), so that
"rejected before any filesystem access" is expressible as an empty trace. -/
def serve_audio (fs : FileSystem) (root filename : List Char)
    (range_header : Option String) : HttpResponse × List (List Char) :=
  if hasSubL dotdot filename || startsSlash filename then
    ({ status := 400, headers := [], body := bodyOfText invalidMsg }, [])
  else if !(fs.isFile (filePathOf root filename)) then
    ({ status := 404, headers := [], body := bodyOfText notFoundMsg },
      [filePathOf root filename])
  else
    let file_size : Int := ((fs.content (filePathOf root filename)).length : Int)
    match range_header with
    | some h =>
      let pr := parse_range_header h file_size
      (setCors (make_partial_response (fs.content (filePathOf root filename))
          pr.1 pr.2 file_size),
        [filePathOf root filename, filePathOf root filename,
          filePathOf root filename])
    | none =>
      (setCors (make_entire_response (fs.content (filePathOf root filename))
          file_size),
        [filePathOf root filename, filePathOf root filename,
          filePathOf root filename])

/-! ## The fetch pipeline (generate / download_audio, src/main.py lines 54-168)

The external yt_dlp and pydub capabilities are modelled as Except-valued
outcomes supplied to the pipeline: probe is the duration returned by
extract_info(download=False) (None when yt_dlp reports no duration, or an
exception message), fetch is the outcome of extract_info(download=True)
together with prepare_filename and the thumbnail, and compress is the
outcome of compress_audio.  The Boolean in the result records whether the
pipeline reached the download step (whether any fetch/encode was
performed and hence whether any file could have been written). -/

def RETENTION_PERIOD : Int := 2 * 60 * 60

structure FetchInfo where
  filepath : String
  thumbnail : Option String
deriving DecidableEq

inductive Payload where
  | success (img : Option String) (direct_link : String)
      (expiration_timestamp : Int)
  | error (msg : String)
deriving DecidableEq

def payloadIsError : Payload → Bool
  | Payload.error _ => true
  | Payload.success _ _ _ => false

/-- Python truthiness gate, if duration and duration <= 300: None and 0 are
falsy, every other integer is truthy. -/
def durationAdmits : Option Int → Bool
  | none => false
  | some n => if n = 0 then false else decide (n ≤ 300)

/-- os.path.splitext stem: everything before the last dot, when one exists. -/
def splitextStemL (s : List Char) : List Char :=
  if s.contains '.' then ((s.reverse.dropWhile (fun c => c != '.')).drop 1).reverse
  else s

/-- os.path.basename: everything after the last separator. -/
def baseNameL (s : List Char) : List Char :=
  (s.reverse.takeWhile (fun c => c != '/')).reverse

def durMsg : String := "Video duration must be less than or equal to 5 minutes."

def errWrap (m : String) : String := "Error processing video: " ++ m

/-- Embedding of generate: the one-shot artifact-production pipeline.  Any
step failure is caught by the surrounding try/except and converted to an
error payload; the duration gate short-circuits before the download. -/
def generate (probe : Except String (Option Int))
    (fetch : Except String FetchInfo) (compress : Except String Unit)
    (base_url : String) (now : Int) : Payload × Bool :=
  match probe with
  | Except.error e => (Payload.error (errWrap e), false)
  | Except.ok duration =>
    if durationAdmits duration then
      match fetch with
      | Except.error e => (Payload.error (errWrap e), true)
      | Except.ok info =>
        match compress with
        | Except.error e => (Payload.error (errWrap e), true)
        | Except.ok _ =>
          let file_name := baseNameL (splitextStemL info.filepath.data)
          (Payload.success info.thumbnail
            (base_url ++ "/audios/" ++ String.mk file_name ++ ".mp3")
            (now + RETENTION_PERIOD), true)
    else (Payload.error durMsg, false)

inductive DlResult where
  | badRequest (msg : String)
  | stream (p : Payload)
deriving DecidableEq

def paramMsg : String := "video_url parameter is required"

/-- Embedding of download_audio: a missing or empty video_url parameter is
falsy and yields 400; otherwise the generator's single payload is streamed
under transport status 200. -/
def download_audio (video_url : Option String)
    (probe : Except String (Option Int)) (fetch : Except String FetchInfo)
    (compress : Except String Unit) (base_url : String) (now : Int) :
    Nat × DlResult :=
  match video_url with
  | none => (400, DlResult.badRequest paramMsg)
  | some u =>
    if u.isEmpty then (400, DlResult.badRequest paramMsg)
    else (200, DlResult.stream (generate probe fetch compress base_url now).1)

/-! ## The search handler (search, src/main.py lines 118-154) -/

structure Video where
  title : String
  link : String
  thumbnails : List String
  duration : String
deriving DecidableEq

structure SearchRes where
  title : String
  url : String
  thumbnail : String
deriving DecidableEq

/-- Split on a separator character, keeping empty segments, as Python
str.split with an explicit separator. -/
def splitCh (sep : Char) : List Char → List (List Char)
  | [] => [[]]
  | c :: rest =>
    let r := splitCh sep rest
    if c == sep then [] :: r
    else
      match r with
      | [] => [[c]]
      | g :: gs => (c :: g) :: gs

def isPyWs (c : Char) : Bool :=
  c == ' ' || c == '\t' || c == '\n' || c == '\r'

def digitsVal? (ds : List Char) : Option Int :=
  if ds.isEmpty then none
  else if ds.all Char.isDigit then some (decVal ds) else none

/-- Python int() on a string: strip whitespace, optional sign, then a
nonempty run of decimal digits; anything else raises ValueError (none). -/
def pythonInt? (s : List Char) : Option Int :=
  let t := ((s.dropWhile isPyWs).reverse.dropWhile isPyWs).reverse
  match t with
  | '-' :: ds => (digitsVal? ds).map (fun v => -v)
  | '+' :: ds => digitsVal? ds
  | ds => digitsVal? ds

/-- Duration in seconds of an MM:SS duration string; none when the string
has no colon, does not split into exactly two fields, or a field is not an
integer (the handler's continue path). -/
def mmssSeconds? (d : String) : Option Int :=
  if d.data.contains ':' then
    match splitCh ':' d.data with
    | [a, b] =>
      match pythonInt? a, pythonInt? b with
      | some m, some s => some (m * 60 + s)
      | _, _ => none
    | _ => none
  else none

def headOrEmpty : List String → String
  | [] => ""
  | t :: _ => t

/-- The {title, url, thumbnail} projection applied to an admitted video. -/
def toResult (v : Video) : SearchRes :=
  { title := v.title, url := v.link, thumbnail := headOrEmpty v.thumbnails }

/-- Embedding of the filtering loop of the search handler: keep a video when
its duration is MM:SS and strictly under 300 seconds. -/
def searchFilter : List Video → List SearchRes
  | [] => []
  | v :: rest =>
    match mmssSeconds? v.duration with
    | some t =>
      if t < 300 then toResult v :: searchFilter rest else searchFilter rest
    | none => searchFilter rest

/-- The admission predicate of the loop, exposed for the statements. -/
def keepShort (v : Video) : Bool :=
  match mmssSeconds? v.duration with
  | some t => decide (t < 300)
  | none => false

/-- Modelled from the spec: an external-catalog entry exceeds the five-minute
bound when its MM:SS duration is more than 300 seconds.  This follows the
words of the spec's example (three results exceeding 5 minutes), not the
source. -/
def specExceedsFiveMinutes (v : Video) : Bool :=
  match mmssSeconds? v.duration with
  | some t => decide (300 < t)
  | none => false

inductive SearchOut where
  | err (msg : String)
  | ok (rs : List SearchRes)
deriving DecidableEq

/-- Embedding of the search handler: empty query is rejected with a 200
error payload, catalog failure gives 500, otherwise the filtered list. -/
def search (q : Option String) (catalog : Except String (List Video)) :
    Nat × SearchOut :=
  match q with
  | none => (200, SearchOut.err "Invalid search query")
  | some s =>
    if s.isEmpty then (200, SearchOut.err "Invalid search query")
    else
      match catalog with
      | Except.error _ => (500, SearchOut.err "Search failed")
      | Except.ok vids => (200, SearchOut.ok (searchFilter vids))

/-! ## The retention sweeper (delete_expired_files, src/main.py lines 253-273)

The cache directory is either absent (none) or a list of entries with their
name, regular-file flag and mtime.  os.remove may fail for an individual
file; removeOk tells which removals succeed, and a failed removal is caught
by the inner try/except, leaving the file in place and the loop running. -/

structure DirEntry where
  name : String
  isFile : Bool
  mtime : Int
deriving DecidableEq

/-- The deletion condition of the sweep: a regular file strictly older than
the retention period. -/
def expiredAt (now : Int) (e : DirEntry) : Bool :=
  e.isFile && decide (now > e.mtime + RETENTION_PERIOD)

/-- Embedding of delete_expired_files: one sweep pass at time now.  An
absent directory is a no-op; otherwise every entry is examined and a
regular file older than the retention period is removed when its removal
succeeds. -/
def delete_expired_files (now : Int) (dir : Option (List DirEntry))
    (removeOk : String → Bool) : Option (List DirEntry) :=
  match dir with
  | none => none
  | some entries =>
    some (entries.filter (fun e => !(expiredAt now e && removeOk e.name)))

/-! ## Claims -/

/-- C1, counterexample: the claim quantifies over every file_size, but at
file_size = 0 (an empty cached file) the resolver returns (0, 0), which
violates the claimed invariant 0 ≤ start ≤ end ≤ file_size - 1, since
file_size - 1 = -1. -/
theorem range_resolver_claim_cex :
    parse_range_header ("bytes=5-10") 0 = (0, 0) ∧
      ¬((parse_range_header ("bytes=5-10") 0).2 ≤ (0 : Int) - 1) := by
  constructor
  · decide
  · decide

/-- C1 (amended to file_size ≥ 1): whenever the first start-end numeric
pattern of the header denotes a valid in-range interval (with a missing end
defaulting to file_size - 1), the resolver returns it unchanged; and for
every header, well-formed or not, the returned interval satisfies
0 ≤ start ≤ end ≤ file_size - 1, start and end being clamped into range. -/
theorem range_resolver_amended (header : String) (file_size : Int)
    (g1 g2 : List Char) (s e : Int) (hsize : 1 ≤ file_size) :
    (reSearch header.data = some (g1, g2) →
      s = decVal g1 →
      e = (if g2.isEmpty then file_size - 1 else decVal g2) →
      0 ≤ s → s ≤ e → e < file_size →
      parse_range_header header file_size = (s, e))
    ∧ (0 ≤ (parse_range_header header file_size).1
        ∧ (parse_range_header header file_size).1 ≤
            (parse_range_header header file_size).2
        ∧ (parse_range_header header file_size).2 ≤ file_size - 1) := by
  constructor
  · intro hm hs he h0 hse hef
    have hg1 : (if g1.isEmpty then (0 : Int) else decVal g1) = decVal g1 := by
      cases g1 <;> simp [decVal]
    simp only [parse_range_header, hm, hg1]
    subst hs he
    by_cases hg2 : g2.isEmpty
    · rw [if_pos hg2] at hse hef
      simp only [hg2, if_pos, Prod.mk.injEq]
      constructor <;> omega
    · rw [if_neg hg2] at hse hef
      simp only [hg2, if_neg, Bool.false_eq_true, not_false_eq_true,
        Prod.mk.injEq]
      constructor <;> omega
  · cases hre : reSearch header.data with
    | none =>
      simp only [parse_range_header, hre]
      omega
    | some p =>
      obtain ⟨g1', g2'⟩ := p
      simp only [parse_range_header, hre]
      refine ⟨?_, ?_, ?_⟩ <;> omega

/-- C1 witness: a concrete valid range is returned unchanged and the clamp
invariant holds at a concrete input. -/
theorem range_resolver_amended_witness :
    parse_range_header ("bytes=2-5") 10 = (2, 5) ∧
      (0 ≤ (parse_range_header ("bytes=2-5") 10).1
        ∧ (parse_range_header ("bytes=2-5") 10).1 ≤
            (parse_range_header ("bytes=2-5") 10).2
        ∧ (parse_range_header ("bytes=2-5") 10).2 ≤ 10 - 1) := by
  constructor
  · exact (range_resolver_amended ("bytes=2-5") 10 (['2']) (['5']) 2 5
      (by decide)).1 (by decide) (by decide) (by decide) (by decide)
      (by decide) (by decide)
  · exact (range_resolver_amended ("bytes=2-5") 10 (['2']) (['5']) 2 5
      (by decide)).2

/-- C3: on an existing file of the given size and a resolved byte range,
the partial response has status 206, a Content-Range header equal to
bytes start-end/size, a Content-Length header equal to end - start + 1,
and its body is exactly the file's bytes from offset start through end:
it has length end - start + 1 and splices with the bytes before start and
after end back into the whole file. -/
theorem byteRangeResponse_correct (content : List Nat) (s e size : Int)
    (hsz : size = (content.length : Int)) (h0 : 0 ≤ s) (hse : s ≤ e)
    (hef : e < size) :
    (make_partial_response content s e size).status = 206
    ∧ (make_partial_response content s e size).headers =
        [("Content-Range",
            "bytes " ++ toString s ++ "-" ++ toString e ++ "/" ++
              toString size),
          ("Content-Length", toString (e - s + 1))]
    ∧ (((make_partial_response content s e size).body.length : Int) =
        e - s + 1)
    ∧ content.take s.toNat ++ (make_partial_response content s e size).body
        ++ content.drop (e + 1).toNat = content := by
  refine ⟨rfl, rfl, ?_, ?_⟩
  · have hlen : ((content.drop s.toNat).take (e - s + 1).toNat).length =
        (e - s + 1).toNat := by
      rw [List.length_take, List.length_drop]
      omega
    show (((content.drop s.toNat).take (e - s + 1).toNat).length : Int) =
      e - s + 1
    rw [hlen]
    omega
  · have hd : content.take s.toNat ++ content.drop s.toNat = content :=
      List.take_append_drop _ _
    have hd2 : (content.drop s.toNat).take (e - s + 1).toNat ++
        (content.drop s.toNat).drop (e - s + 1).toNat =
        content.drop s.toNat :=
      List.take_append_drop _ _
    have hdd : (content.drop s.toNat).drop (e - s + 1).toNat =
        content.drop (e + 1).toNat := by
      rw [List.drop_drop]
      congr 1
      omega
    show content.take s.toNat ++
        (content.drop s.toNat).take (e - s + 1).toNat ++
        content.drop (e + 1).toNat = content
    rw [List.append_assoc, ← hdd, hd2, hd]

/-- C3 witness: the middle two bytes of a three-byte file. -/
theorem byteRangeResponse_correct_witness :
    (make_partial_response ([10, 20, 30]) 1 2 3).status = 206
    ∧ (make_partial_response ([10, 20, 30]) 1 2 3).headers =
        [("Content-Range",
            "bytes " ++ toString (1 : Int) ++ "-" ++ toString (2 : Int) ++
              "/" ++ toString (3 : Int)),
          ("Content-Length", toString ((2 : Int) - 1 + 1))]
    ∧ ((((make_partial_response ([10, 20, 30]) 1 2 3).body.length : Int)) =
        2 - 1 + 1)
    ∧ ([10, 20, 30] : List Nat).take (1 : Int).toNat ++
        (make_partial_response ([10, 20, 30]) 1 2 3).body ++
        ([10, 20, 30] : List Nat).drop ((2 : Int) + 1).toNat =
        [10, 20, 30] :=
  byteRangeResponse_correct ([10, 20, 30]) 1 2 3 (by decide) (by decide)
    (by decide) (by decide)

/-- Concrete filesystem for the delivery witnesses: every path is a regular
file holding the two bytes 7, 8. -/
def fsEx : FileSystem := FileSystem.mk (fun _ => true) (fun _ => [7, 8])

def fnEx : List Char := "song.mp3".data

def rootEx : List Char := "/app".data

/-- C4: an existing file with a safe name served without a Range header
yields status 200, a Content-Length header equal to the file's size, and
the whole file as the body. -/
theorem fullResponse_correct (fs : FileSystem) (root filename : List Char)
    (hgood : (hasSubL dotdot filename || startsSlash filename) = false)
    (hfile : fs.isFile (filePathOf root filename) = true) :
    (serve_audio fs root filename none).1.status = 200
    ∧ ("Content-Length",
        toString ((fs.content (filePathOf root filename)).length : Int)) ∈
        (serve_audio fs root filename none).1.headers
    ∧ (serve_audio fs root filename none).1.body =
        fs.content (filePathOf root filename) := by
  refine ⟨?_, ?_, ?_⟩ <;>
    simp [serve_audio, hgood, hfile, setCors, make_entire_response]

/-- C5: a filename containing a dot-dot sequence or starting with a
separator is answered with 400 and an empty filesystem-access trace, for
every filesystem: the rejection happens before any existence check, open
or read. -/
theorem traversal_rejected (fs : FileSystem) (root filename : List Char)
    (rh : Option String)
    (h : hasSubL dotdot filename = true ∨ startsSlash filename = true) :
    (serve_audio fs root filename rh).1.status = 400
    ∧ (serve_audio fs root filename rh).2 = [] := by
  have hc : (hasSubL dotdot filename || startsSlash filename) = true := by
    rcases h with h | h <;> simp [h]
  refine ⟨?_, ?_⟩ <;> simp [serve_audio, hc]

/-- C5 witness: the traversal attempt of the spec's example is rejected
with 400 and no filesystem access. -/
theorem traversal_rejected_witness :
    (serve_audio fsEx rootEx ("../../etc/passwd".data) none).1.status = 400
    ∧ (serve_audio fsEx rootEx ("../../etc/passwd".data) none).2 = [] :=
  traversal_rejected fsEx rootEx ("../../etc/passwd".data) none
    (Or.inl (by decide))

/-- A head character that is not a digit cannot start a match of
the pattern. -/
theorem matchAt_nondigit (c : Char) (l : List Char)
    (h : c.isDigit = false) : matchAt (c :: l) = none := by
  simp [matchAt, List.takeWhile_cons, h]

/-- The leftmost search walks past a non-digit head. -/
theorem reSearch_cons_nondigit (c : Char) (l : List Char)
    (h : c.isDigit = false) : reSearch (c :: l) = reSearch l := by
  simp [reSearch, matchAt_nondigit c l h]

/-- A string of digits alone contains no start-end pattern: there is no
dash for the digit run to meet. -/
theorem reSearch_allDigits (ds : List Char)
    (h : ∀ c ∈ ds, c.isDigit = true) : reSearch ds = none := by
  induction ds with
  | nil => rfl
  | cons c rest ih =>
    have hc : c.isDigit = true := h c (by simp)
    have hr : ∀ x ∈ rest, x.isDigit = true := fun x hx => h x (by simp [hx])
    have hdw : (c :: rest).dropWhile Char.isDigit = [] := by
      rw [List.dropWhile_eq_nil_iff]
      intro x hx
      exact h x hx
    have hm : matchAt (c :: rest) = none := by
      simp [matchAt, hdw, List.takeWhile_cons, hc]
    simp [reSearch, hm, ih hr]

/-- A suffix-only Range value bytes=-N has no digits-dash occurrence, so
the search fails. -/
theorem reSearch_bytesDash (N : List Char)
    (h : ∀ c ∈ N, c.isDigit = true) :
    reSearch ("bytes=-".data ++ N) = none := by
  show reSearch ('b' :: 'y' :: 't' :: 'e' :: 's' :: '=' :: '-' :: N) = none
  rw [reSearch_cons_nondigit _ _ (by decide),
    reSearch_cons_nondigit _ _ (by decide),
    reSearch_cons_nondigit _ _ (by decide),
    reSearch_cons_nondigit _ _ (by decide),
    reSearch_cons_nondigit _ _ (by decide),
    reSearch_cons_nondigit _ _ (by decide),
    reSearch_cons_nondigit _ _ (by decide)]
  exact reSearch_allDigits N h

/-- C10: a suffix-only Range header bytes=-N over a nonempty file yields
no numeric match, so the resolver returns the full-file interval
(0, size - 1), and the handler serves the whole file as a 206 partial
response. -/
theorem suffix_range_full_file (N : List Char) (fs : FileSystem)
    (root filename : List Char) (hN : N ≠ [])
    (hdig : ∀ c ∈ N, c.isDigit = true)
    (hgood : (hasSubL dotdot filename || startsSlash filename) = false)
    (hfile : fs.isFile (filePathOf root filename) = true)
    (hsz : 1 ≤ ((fs.content (filePathOf root filename)).length : Int)) :
    parse_range_header (String.mk ("bytes=-".data ++ N))
        ((fs.content (filePathOf root filename)).length : Int) =
      (0, ((fs.content (filePathOf root filename)).length : Int) - 1)
    ∧ (serve_audio fs root filename
        (some (String.mk ("bytes=-".data ++ N)))).1.status = 206
    ∧ (serve_audio fs root filename
        (some (String.mk ("bytes=-".data ++ N)))).1.body =
        fs.content (filePathOf root filename) := by
  have hre : reSearch ('b' :: 'y' :: 't' :: 'e' :: 's' :: '=' :: '-' :: N) =
      none := reSearch_bytesDash N hdig
  have hp : ∀ z : Int, parse_range_header
      (String.mk ('b' :: 'y' :: 't' :: 'e' :: 's' :: '=' :: '-' :: N)) z =
      (0, z - 1) := by
    intro z
    simp [parse_range_header, hre]
  refine ⟨hp _, ?_, ?_⟩
  · simp [serve_audio, hgood, hfile, hp, setCors, make_partial_response]
  · simp [serve_audio, hgood, hfile, hp, setCors, make_partial_response]

/-- C10 witness: bytes=-500 against a two-byte file serves both bytes with
status 206. -/
theorem suffix_range_full_file_witness :
    parse_range_header (String.mk ("bytes=-".data ++ ['5', '0', '0']))
        ((fsEx.content (filePathOf rootEx fnEx)).length : Int) =
      (0, ((fsEx.content (filePathOf rootEx fnEx)).length : Int) - 1)
    ∧ (serve_audio fsEx rootEx fnEx
        (some (String.mk ("bytes=-".data ++ ['5', '0', '0'])))).1.status = 206
    ∧ (serve_audio fsEx rootEx fnEx
        (some (String.mk ("bytes=-".data ++ ['5', '0', '0'])))).1.body =
        fsEx.content (filePathOf rootEx fnEx) :=
  suffix_range_full_file (['5', '0', '0']) fsEx rootEx fnEx (by decide)
    (by decide) (by decide) (by decide) (by decide)

/-- C4 witness: a concrete two-byte file served whole. -/
theorem fullResponse_correct_witness :
    (serve_audio fsEx rootEx fnEx none).1.status = 200
    ∧ ("Content-Length",
        toString ((fsEx.content (filePathOf rootEx fnEx)).length : Int)) ∈
        (serve_audio fsEx rootEx fnEx none).1.headers
    ∧ (serve_audio fsEx rootEx fnEx none).1.body =
        fsEx.content (filePathOf rootEx fnEx) :=
  fullResponse_correct fsEx rootEx fnEx (by decide) (by decide)

/-- Concrete fetch outcome used by the pipeline witnesses: a successfully
downloaded file with a thumbnail. -/
def fetchEx : Except String FetchInfo :=
  Except.ok (FetchInfo.mk ("audios/abc123.webm") (some ("thumb.jpg")))

def urlEx : String := "http://h"

/-- C2, counterexample: the claim says every known probed duration of at
most 300 seconds proceeds to the full fetch, but a probed duration of 0
seconds is falsy in the gate if duration and duration <= 300, so the
pipeline short-circuits with the duration error payload and performs no
fetch. -/
theorem duration_gate_claim_cex :
    (0 : Int) ≤ 300 ∧
      generate (Except.ok (some 0)) fetchEx (Except.ok ()) urlEx 1000 =
        (Payload.error durMsg, false) := by
  constructor
  · decide
  · rfl

/-- C2 (amended: a probed duration of 0 is treated like an unknown one):
when the probed duration is unknown, zero, or above 300 seconds, the
pipeline short-circuits with the structured duration error and performs no
fetch; when it is a known nonzero duration of at most 300 seconds
(300 itself included), the pipeline proceeds to the full fetch. -/
theorem duration_gate_amended (n : Int) (d : Option Int)
    (fetch : Except String FetchInfo) (compress : Except String Unit)
    (base_url : String) (now : Int) :
    ((d = none ∨ d = some 0 ∨ (d = some n ∧ 300 < n)) →
      generate (Except.ok d) fetch compress base_url now =
        (Payload.error durMsg, false))
    ∧ (d = some n → n ≠ 0 → n ≤ 300 →
        (generate (Except.ok d) fetch compress base_url now).2 = true) := by
  constructor
  · intro h
    have hgate : durationAdmits d = false := by
      rcases h with h | h | ⟨h, hn⟩ <;> subst h <;>
        simp [durationAdmits] <;> omega
    simp [generate, hgate]
  · intro hd hn hle
    subst hd
    have hgate : durationAdmits (some n) = true := by
      simp [durationAdmits, hn, hle]
    simp only [generate, hgate, if_pos]
    cases fetch with
    | error e => rfl
    | ok info =>
      cases compress with
      | error e => rfl
      | ok u => rfl

/-- C2 witness: a probed duration of 301 yields the error payload with no
fetch, and a probed duration of exactly 300 reaches the fetch step. -/
theorem duration_gate_amended_witness :
    (generate (Except.ok (some 301)) fetchEx (Except.ok ()) urlEx 1000 =
      (Payload.error durMsg, false))
    ∧ (generate (Except.ok (some 300)) fetchEx (Except.ok ()) urlEx
        1000).2 = true :=
  ⟨(duration_gate_amended 301 (some 301) fetchEx (Except.ok ()) urlEx
      1000).1 (Or.inr (Or.inr ⟨rfl, by decide⟩)),
    (duration_gate_amended 300 (some 300) fetchEx (Except.ok ()) urlEx
      1000).2 rfl (by decide) (by decide)⟩

/-- C8: with a reference supplied, the /download transport always reports
200 and streams the pipeline's single payload; and whenever any step of the
pipeline fails (probe, download or post-process raises), the streamed
payload is a structured error payload rather than a propagated fault. -/
theorem pipeline_catches (u : String) (probe : Except String (Option Int))
    (fetch : Except String FetchInfo) (compress : Except String Unit)
    (base_url : String) (now : Int) (hu : u.isEmpty = false) :
    (download_audio (some u) probe fetch compress base_url now).1 = 200
    ∧ (download_audio (some u) probe fetch compress base_url now).2 =
        DlResult.stream ((generate probe fetch compress base_url now).1)
    ∧ (((∃ m, probe = Except.error m) ∨ (∃ m, fetch = Except.error m) ∨
        (∃ m, compress = Except.error m)) →
        payloadIsError ((generate probe fetch compress base_url now).1) =
          true) := by
  refine ⟨?_, ?_, ?_⟩
  · simp [download_audio, hu]
  · simp [download_audio, hu]
  · intro hfail
    cases probe with
    | error e => rfl
    | ok d =>
      by_cases hg : durationAdmits d
      · cases fetch with
        | error e => simp [generate, hg, payloadIsError]
        | ok info =>
          cases compress with
          | error e => simp [generate, hg, payloadIsError]
          | ok w =>
            exfalso
            rcases hfail with ⟨m, hm⟩ | ⟨m, hm⟩ | ⟨m, hm⟩ <;> cases hm
      · simp [generate, hg, payloadIsError]

/-- C8 witness: a probe failure is converted into a streamed error payload
under transport status 200. -/
theorem pipeline_catches_witness :
    (download_audio (some ("u")) (Except.error ("boom")) fetchEx
        (Except.ok ()) urlEx 1000).1 = 200
    ∧ (download_audio (some ("u")) (Except.error ("boom")) fetchEx
        (Except.ok ()) urlEx 1000).2 =
        DlResult.stream ((generate (Except.error ("boom")) fetchEx
          (Except.ok ()) urlEx 1000).1)
    ∧ payloadIsError ((generate (Except.error ("boom")) fetchEx
        (Except.ok ()) urlEx 1000).1) = true := by
  have h := pipeline_catches ("u") (Except.error ("boom")) fetchEx
    (Except.ok ()) urlEx 1000 (by decide)
  exact ⟨h.1, h.2.1, h.2.2 (Or.inl ⟨("boom"), rfl⟩)⟩

/-- C6: one sweep pass at time now deletes every regular file strictly
older than the retention period, leaves every entry whose age does not
exceed the retention period in place, and treats an absent cache directory
as a no-op. -/
theorem retention_sweep_correct (now : Int) (es : List DirEntry)
    (e : DirEntry) (he : e ∈ es) :
    delete_expired_files now none (fun _ => true) = none
    ∧ (e.isFile = true → now - e.mtime > RETENTION_PERIOD →
        e ∉ (delete_expired_files now (some es) (fun _ => true)).getD [])
    ∧ (now - e.mtime ≤ RETENTION_PERIOD →
        e ∈ (delete_expired_files now (some es) (fun _ => true)).getD []) := by
  refine ⟨rfl, ?_, ?_⟩
  · intro hf hold
    simp only [delete_expired_files, Option.getD_some, List.mem_filter]
    rintro ⟨hmem, hkeep⟩
    simp [expiredAt, hf] at hkeep
    omega
  · intro hyoung
    simp only [delete_expired_files, Option.getD_some, List.mem_filter]
    refine ⟨he, ?_⟩
    simp [expiredAt]
    exact Or.inr (by omega)

def oldE : DirEntry := DirEntry.mk ("a.mp3") true 0

def youngE : DirEntry := DirEntry.mk ("b.mp3") true 9000

def dirEx : List DirEntry := [oldE, youngE]

/-- C6 witness: at time 10000, a file with mtime 0 (age 10000 > 7200) is
swept while a file with mtime 9000 (age 1000) survives, and an absent
directory is a no-op. -/
theorem retention_sweep_correct_witness :
    delete_expired_files 10000 none (fun _ => true) = none
    ∧ oldE ∉ (delete_expired_files 10000 (some dirEx)
        (fun _ => true)).getD []
    ∧ youngE ∈ (delete_expired_files 10000 (some dirEx)
        (fun _ => true)).getD [] := by
  have h1 := retention_sweep_correct 10000 dirEx oldE (by decide)
  have h2 := retention_sweep_correct 10000 dirEx youngE (by decide)
  exact ⟨h1.1, h1.2.1 (by decide) (by decide), h2.2.2 (by decide)⟩

/-- C7: the sweep pass is total (it always returns, so no exception ever
reaches the caller); an entry whose removal fails is merely skipped and is
still present afterwards; and a failed removal does not abort the pass:
every other expired entry whose removal succeeds is still deleted. -/
theorem sweep_error_skip (now : Int) (es : List DirEntry)
    (removeOk : String → Bool) (f e : DirEntry) (hf : f ∈ es)
    (he : e ∈ es) :
    (delete_expired_files now (some es) removeOk).isSome = true
    ∧ (removeOk f.name = false →
        f ∈ (delete_expired_files now (some es) removeOk).getD [])
    ∧ (e.isFile = true → now - e.mtime > RETENTION_PERIOD →
        removeOk e.name = true →
        e ∉ (delete_expired_files now (some es) removeOk).getD []) := by
  refine ⟨rfl, ?_, ?_⟩
  · intro hrf
    simp only [delete_expired_files, Option.getD_some, List.mem_filter]
    exact ⟨hf, by simp [hrf]⟩
  · intro hisf hold hrok
    simp only [delete_expired_files, Option.getD_some, List.mem_filter]
    rintro ⟨_, hkeep⟩
    simp [expiredAt, hisf, hrok] at hkeep
    omega

def failE : DirEntry := DirEntry.mk ("locked.mp3") true 0

def goneE : DirEntry := DirEntry.mk ("gone.mp3") true 0

def dirEx2 : List DirEntry := [failE, goneE]

/-- Removal oracle of the C7 witness: deleting locked.mp3 fails, all other
removals succeed. -/
def rokEx : String → Bool := fun s => s != "locked.mp3"

/-- C7 witness: with two expired files of which one cannot be removed, the
pass still returns, keeps the failing file, and deletes the other. -/
theorem sweep_error_skip_witness :
    (delete_expired_files 10000 (some dirEx2) rokEx).isSome = true
    ∧ failE ∈ (delete_expired_files 10000 (some dirEx2) rokEx).getD []
    ∧ goneE ∉ (delete_expired_files 10000 (some dirEx2) rokEx).getD [] := by
  have h := sweep_error_skip 10000 dirEx2 rokEx failE goneE (by decide)
    (by decide)
  exact ⟨h.1, h.2.1 (by decide), h.2.2 (by decide) (by decide) (by decide)⟩

def vid (t l d : String) : Video :=
  { title := t, link := l, thumbnails := [], duration := d }

/-- Ten catalog entries of which exactly three exceed five minutes and one
lasts exactly five minutes. -/
def exCatalog : List Video :=
  [vid ("t1") ("u1") ("6:00"), vid ("t2") ("u2") ("1:00"),
    vid ("t3") ("u3") ("6:30"), vid ("t4") ("u4") ("2:00"),
    vid ("t5") ("u5") ("7:00"), vid ("t6") ("u6") ("0:30"),
    vid ("t7") ("u7") ("3:00"), vid ("t8") ("u8") ("4:59"),
    vid ("t9") ("u9") ("2:30"), vid ("t10") ("u10") ("5:00")]

/-- C9, counterexample: the handler keeps only durations strictly under
300 seconds, so a catalog of ten entries with three exceeding five minutes
and one lasting exactly 5:00 yields six entries, not the seven the claim
(entries not exceeding the five-minute bound) predicts. -/
theorem search_claim_cex :
    exCatalog.length = 10
    ∧ (exCatalog.filter specExceedsFiveMinutes).length = 3
    ∧ (search (some ("lofi")) (Except.ok exCatalog)).2 =
        SearchOut.ok (searchFilter exCatalog)
    ∧ (searchFilter exCatalog).length = 6
    ∧ ¬(searchFilter exCatalog).length = 7 := by
  refine ⟨rfl, by decide, rfl, by decide, by decide⟩

/-- C9 (amended: an entry is kept exactly when its duration is in MM:SS
form and is strictly less than 300 seconds): the /search handler answers a
nonempty query with status 200 and exactly the catalog entries admitted by
that strict predicate, each mapped to its title, url and first thumbnail
(empty when the entry has none). -/
theorem search_amended (q : String) (hq : q.isEmpty = false)
    (l : List Video) :
    search (some q) (Except.ok l) =
      (200, SearchOut.ok ((l.filter keepShort).map toResult)) := by
  have hsf : ∀ vs : List Video,
      searchFilter vs = (vs.filter keepShort).map toResult := by
    intro vs
    induction vs with
    | nil => rfl
    | cons v rest ih =>
      cases hmm : mmssSeconds? v.duration with
      | none => simp [searchFilter, hmm, List.filter_cons, keepShort, ih]
      | some t =>
        by_cases ht : t < 300
        · simp [searchFilter, hmm, ht, List.filter_cons, keepShort, ih]
        · simp [searchFilter, hmm, ht, List.filter_cons, keepShort, ih]
  simp [search, hq, hsf]

/-- C9 witness: the amended description evaluated on the concrete
ten-entry catalog. -/
theorem search_amended_witness :
    search (some ("lofi")) (Except.ok exCatalog) =
      (200, SearchOut.ok ((exCatalog.filter keepShort).map toResult)) :=
  search_amended ("lofi") (by decide) exCatalog

end YTA
